import Mathlib

/-!
Shallow embedding of the cc-amqp-experiment order-fulfillment services
(order, inventory, payment, order-tracking), translated from the TypeScript
sources.  The relational store shared by all services (Prisma models
`Order`, `User`, `Products`, `OrderTrack`) is modelled as an explicit `Db`
value threaded through each handler; monetary amounts (`Float` in the
schema) are modelled as rationals, stock counts as integers; the broker is
modelled by the list of messages a handler publishes.
-/

/-- Prisma model `Products` (id, name, price, stockAmount). -/
structure Product where
  id : String
  name : String
  price : Rat
  stockAmount : Int
deriving Repr, DecidableEq

/-- Prisma model `User` (id, name, balance). -/
structure User where
  id : String
  name : String
  balance : Rat
deriving Repr, DecidableEq

/-- Prisma model `Order`: the many-to-many `products` relation is kept as
the list of related product ids. -/
structure Order where
  id : String
  userId : String
  productIds : List String
deriving Repr, DecidableEq

/-- Prisma model `OrderTrack` (`orderId` carries an `@unique` constraint). -/
structure OrderTrack where
  id : String
  orderId : String
  status : String
deriving Repr, DecidableEq

/-- The shared relational store. -/
structure Db where
  users : List User
  products : List Product
  orders : List Order
  tracks : List OrderTrack
deriving Repr, DecidableEq

/-- The wire contract `QueueMessage` from the shared types package. -/
inductive QueueMessage where
  | orderCreated (orderId : String) (productIds : List String)
  | inventoryChecked (orderId : String) (isAvailable : Bool)
  | paymentProcessed (orderId : String) (status : String)
deriving Repr, DecidableEq

/-- `prisma.order.findUnique({where:{id}})`. -/
def findOrder (db : Db) (orderId : String) : Option Order :=
  db.orders.find? (fun o => o.id == orderId)

/-- `prisma.user.findUnique({where:{id}})` (used through relation `include`). -/
def findUser (db : Db) (userId : String) : Option User :=
  db.users.find? (fun u => u.id == userId)

/-- `prisma.orderTrack.findUnique({where:{id: trackerId}})`. -/
def findTracker (db : Db) (trackerId : String) : Option OrderTrack :=
  db.tracks.find? (fun t => t.id == trackerId)

/-! ## Order-tracking service (order-tracking-service/src/app.ts) -/

/-- `prisma.orderTrack.create`: the `@id` on `id` and `@unique` on `orderId`
make the insert fail (throw) when a row with the same id or the same
orderId already exists; otherwise the new row is appended. -/
def orderTrackCreate (db : Db) (newId orderId status : String) :
    Except String Db :=
  if db.tracks.any (fun t => t.id == newId || t.orderId == orderId) then
    Except.error "Unique constraint failed on OrderTrack"
  else
    Except.ok { db with tracks := db.tracks ++ [⟨newId, orderId, status⟩] }

/-- `prisma.orderTrack.update({where:{orderId}, data:{status}})`: rewrites
the status of the row whose `orderId` matches (throwing, hence leaving the
store unchanged, when none does). -/
def orderTrackUpdateByOrder (db : Db) (orderId status : String) : Db :=
  { db with
    tracks := db.tracks.map (fun t =>
      if t.orderId == orderId then { t with status := status } else t) }

/-- `prisma.orderTrack.update({where:{id: trackerId}, data:{status}})`. -/
def orderTrackUpdateById (db : Db) (trackerId status : String) : Db :=
  { db with
    tracks := db.tracks.map (fun t =>
      if t.id == trackerId then { t with status := status } else t) }

/-- The track-queue consumer of the order-tracking service: creates the
tracker on `order.created` (the `connect` fails when the order is absent,
the unique constraint fails on a duplicate; either way the store is left
unchanged), cancels on `inventory.checked{isAvailable:false}`, and on
`payment.processed` sets `paid` on `"success"` and `canceled` otherwise —
unconditionally, with no check of the current status. -/
def handleTrackMessage (db : Db) (newTrackId : String) (msg : QueueMessage) :
    Db :=
  match msg with
  | QueueMessage.orderCreated orderId _ =>
    if (findOrder db orderId).isSome then
      match orderTrackCreate db newTrackId orderId "created" with
      | Except.ok db2 => db2
      | Except.error _ => db
    else db
  | QueueMessage.inventoryChecked orderId isAvailable =>
    if isAvailable then db
    else orderTrackUpdateByOrder db orderId "canceled"
  | QueueMessage.paymentProcessed orderId status =>
    orderTrackUpdateByOrder db orderId
      (if status == "success" then "paid" else "canceled")

/-- `POST /api/v1/track/create` handler: 400 on a missing body field, 404
when the order does not exist, 500 when the insert violates the unique
constraint, 201 with the new tracker otherwise.  Returns
((status code, payload), store). -/
def trackCreateHandler (db : Db) (orderId newTrackId : String) :
    (Nat × Option (String × String)) × Db :=
  if orderId == "" then ((400, none), db)
  else
    match findOrder db orderId with
    | none => ((404, none), db)
    | some o =>
      match orderTrackCreate db newTrackId o.id "created" with
      | Except.error _ => ((500, none), db)
      | Except.ok db2 => ((201, some (newTrackId, "created")), db2)

/-- `PATCH /api/v1/track/update/:trackerId` handler.  The source sends a 400
when `newStatus` is not `paid`/`canceled` but is missing a `return` there,
so execution continues: the tracker is still looked up and, when found,
updated with the invalid status (the later `res.status(200)` then throws,
already-sent headers keep the client's status code at 400).  Returns
(first status code written, store). -/
def trackUpdateHandler (db : Db) (trackerId newStatus : String) : Nat × Db :=
  if trackerId == "" then (400, db)
  else if newStatus == "" then (400, db)
  else if newStatus != "paid" && newStatus != "canceled" then
    match findTracker db trackerId with
    | none => (400, db)
    | some _ => (400, orderTrackUpdateById db trackerId newStatus)
  else
    match findTracker db trackerId with
    | none => (404, db)
    | some _ => (200, orderTrackUpdateById db trackerId newStatus)

/-- `GET /api/v1/track/:trackerId` handler (read-only). -/
def trackGetHandler (db : Db) (trackerId : String) :
    Nat × Option OrderTrack :=
  if trackerId == "" then (400, none)
  else
    match findTracker db trackerId with
    | none => (404, none)
    | some t => (200, some t)

/-- At most one tracker per order: all stored trackers have pairwise
distinct `orderId`s (the invariant backed by the schema's `@unique`). -/
def TracksUnique (db : Db) : Prop :=
  db.tracks.Pairwise (fun a b => a.orderId ≠ b.orderId)

instance (db : Db) : Decidable (TracksUnique db) := by
  unfold TracksUnique; infer_instance

/-- A store with a single tracker already in the terminal status `paid`. -/
def dbPaid : Db :=
  { users := [], products := [],
    orders := [⟨"o1", "u1", []⟩],
    tracks := [⟨"t1", "o1", "paid"⟩] }

/-- A store with a single tracker in the initial status `created`. -/
def dbCreated : Db :=
  { users := [], products := [],
    orders := [⟨"o1", "u1", []⟩],
    tracks := [⟨"t1", "o1", "created"⟩] }

/-- A store with one order and no tracker yet. -/
def dbNoTrack : Db :=
  { users := [], products := [],
    orders := [⟨"o1", "u1", []⟩],
    tracks := [] }

/-! ## Inventory service (inventory-service/src/app.ts) -/

/-- `prisma.products.findMany({where:{id:{in: productIds}}})`. -/
def findManyProducts (db : Db) (productIds : List String) : List Product :=
  db.products.filter (fun p => productIds.contains p.id)

/-- The `groupedProducts` reduce: how many times `id` occurs in the
requested list. -/
def groupedCount (productIds : List String) (id : String) : Nat :=
  (productIds.filter (fun x => x == id)).length

/-- The `isAvailable` computation: `products.every(p =>
groupedProducts[p.id] && groupedProducts[p.id] <= p.stockAmount)` — it
ranges over the MATCHED rows, not over the requested identifiers. -/
def checkAvailability (products : List Product) (productIds : List String) :
    Bool :=
  products.all (fun p =>
    groupedCount productIds p.id != 0 &&
    decide ((groupedCount productIds p.id : Int) ≤ p.stockAmount))

/-- Availability as both inventory entry points compute it. -/
def availableFor (db : Db) (productIds : List String) : Bool :=
  checkAvailability (findManyProducts db productIds) productIds

/-- `prisma.order.update({where:{id}, data:{products:{connect: ...}}})`:
adds the order↔product relations; connecting an already-related product
leaves the relation set unchanged. -/
def connectProducts (db : Db) (orderId : String) (ps : List Product) : Db :=
  { db with
    orders := db.orders.map (fun o =>
      if o.id == orderId then
        { o with
          productIds := o.productIds ++
            (ps.map Product.id).filter (fun i => !o.productIds.contains i) }
      else o) }

/-- `GET /api/v1/inventory` handler: 400 on missing fields, 404 when no
stored product matches, otherwise 200 with the computed `isAvailable`
(attaching the matched products to the order first when available; the
order.update throws when the order is absent → caught → 500).  Returns
((status code, isAvailable payload), store). -/
def checkInventoryHandler (db : Db) (orderId : String)
    (productIds : List String) : (Nat × Option Bool) × Db :=
  if orderId == "" || productIds.isEmpty then ((400, none), db)
  else if (findManyProducts db productIds).isEmpty then ((404, none), db)
  else if availableFor db productIds then
    match findOrder db orderId with
    | none => ((500, none), db)
    | some _ =>
      ((200, some true), connectProducts db orderId
        (findManyProducts db productIds))
  else ((200, some false), db)

/-- The `order.created` branch of the inventory-queue consumer: when no
stored product matches it logs and returns WITHOUT publishing anything;
otherwise it attaches the products when available and publishes
`inventory.checked` with the computed flag (when available but the order
is absent, the order.update throws → caught → no publish).  Returns
(store, published messages). -/
def handleOrderCreatedInventory (db : Db) (orderId : String)
    (productIds : List String) : Db × List QueueMessage :=
  if (findManyProducts db productIds).isEmpty then (db, [])
  else if availableFor db productIds then
    match findOrder db orderId with
    | none => (db, [])
    | some _ =>
      (connectProducts db orderId (findManyProducts db productIds),
       [QueueMessage.inventoryChecked orderId true])
  else (db, [QueueMessage.inventoryChecked orderId false])

/-- `PATCH /api/v1/inventory/update/:orderId` handler: decrements the stock
of every product attached to the order by one, unconditionally. -/
def inventoryUpdateHandler (db : Db) (orderId : String) : Nat × Db :=
  if orderId == "" then (400, db)
  else
    match findOrder db orderId with
    | none => (404, db)
    | some o =>
      (200, { db with
        products := db.products.map (fun p =>
          if o.productIds.contains p.id then
            { p with stockAmount := p.stockAmount - 1 }
          else p) })

/-- The `payment.processed` branch of the inventory-queue consumer: skips
on `"failed"`, otherwise decrements the stock of the order's attached
products by one each. -/
def handlePaymentProcessedInventory (db : Db) (orderId status : String) :
    Db :=
  if status == "failed" then db
  else
    match findOrder db orderId with
    | none => db
    | some o =>
      { db with
        products := db.products.map (fun p =>
          if o.productIds.contains p.id then
            { p with stockAmount := p.stockAmount - 1 }
          else p) }

/-- The availability predicate in the spec's words, for comparison with the
code's `checkAvailability`: every REQUESTED product identity is present
among the stored rows and its requested count is at most that row's
stock. -/
def specAvailable (db : Db) (productIds : List String) : Bool :=
  productIds.all (fun pid =>
    db.products.any (fun p =>
      p.id == pid &&
      decide ((groupedCount productIds pid : Int) ≤ p.stockAmount)))

/-- A store with one product (price 1, stock 10) and one order. -/
def dbInv : Db :=
  { users := [], products := [⟨"A", "Bread", 1, 10⟩],
    orders := [⟨"o1", "u1", []⟩], tracks := [] }

/-! ## Payment service (payment-service/src/app.ts) -/

/-- The products attached to an order (the rows the relation `include`
loads). -/
def attachedProducts (db : Db) (o : Order) : List Product :=
  db.products.filter (fun p => o.productIds.contains p.id)

/-- `order.products.map(p => p.price).reduce((acc, price) => acc + price, 0)`. -/
def orderTotal (db : Db) (o : Order) : Rat :=
  ((attachedProducts db o).map Product.price).foldl (· + ·) 0

/-- `prisma.user.update({where:{id}, data:{balance:{decrement: amount}}})`. -/
def debitUser (db : Db) (userId : String) (amount : Rat) : Db :=
  { db with
    users := db.users.map (fun u =>
      if u.id == userId then { u with balance := u.balance - amount } else u) }

/-- The `inventory.checked` branch of the payment-queue consumer: skips
when unavailable; publishes `payment.processed{failed}` when the order is
absent or the balance is below the total; otherwise debits the total and
publishes `payment.processed{success}`.  Returns (store, published
messages). -/
def handleInventoryCheckedPayment (db : Db) (orderId : String)
    (isAvailable : Bool) : Db × List QueueMessage :=
  if !isAvailable then (db, [])
  else
    match findOrder db orderId with
    | none => (db, [QueueMessage.paymentProcessed orderId "failed"])
    | some o =>
      match findUser db o.userId with
      | none => (db, [])
      | some u =>
        if u.balance < orderTotal db o then
          (db, [QueueMessage.paymentProcessed orderId "failed"])
        else
          (debitUser db o.userId (orderTotal db o),
           [QueueMessage.paymentProcessed orderId "success"])

/-- `POST /api/v1/payment` handler.  The axios PATCH to the inventory
service runs against the same shared store and is inlined as
`inventoryUpdateHandler`; the final `prisma.user.update` may fail at
runtime, which the `debitErrors` flag injects (the outer catch then
answers 500 while the stock decrement already happened remotely).
Returns ((status code, payment-status payload), store). -/
def paymentHandler (db : Db) (orderId : String) (debitErrors : Bool) :
    (Nat × Option String) × Db :=
  if orderId == "" then ((400, some "failed"), db)
  else
    match findOrder db orderId with
    | none => ((404, some "failed"), db)
    | some o =>
      match findUser db o.userId with
      | none => ((500, none), db)
      | some u =>
        if u.balance < orderTotal db o then ((400, some "failed"), db)
        else if (inventoryUpdateHandler db orderId).1 != 200 then
          ((400, some "failed"), (inventoryUpdateHandler db orderId).2)
        else if debitErrors then
          ((500, none), (inventoryUpdateHandler db orderId).2)
        else
          ((200, some "success"),
           debitUser (inventoryUpdateHandler db orderId).2 o.userId
             (orderTotal db o))

/-! ## Order service (order-service/src/app.ts) -/

/-- The fixed buyer id every created order is connected to. -/
def defaultUserId : String := "3c3e02d1-af13-412a-b309-5382155a6bd4"

/-- `prisma.order.create` with the default user and no products. -/
def createOrder (db : Db) (newOrderId userId : String) : Db :=
  { db with orders := db.orders ++ [⟨newOrderId, userId, []⟩] }

/-- Outcome of one axios call: `resp` for a resolved response (axios is
configured with `validateStatus: status < 500`, so only statuses below 500
resolve), `threw` for a network error or a 5xx response. -/
inductive CallOutcome (α : Type) where
  | resp (status : Nat) (body : α)
  | threw
deriving Repr, DecidableEq

/-- The three downstream call outcomes seen by one run of the synchronous
saga: inventory check (body: `isAvailable`), tracker create (body:
`trackerId`), payment settle (body: the payment status string). -/
structure SagaEnv where
  inventory : CallOutcome Bool
  tracker : CallOutcome String
  payment : CallOutcome String
deriving Repr, DecidableEq

/-- `POST /api/v1/order` handler: create the order, then inventory check,
tracker create, and payment settle in sequence.  The second component of
the response lists, in order, the tracker PATCH calls (trackerId,
newStatus) issued before responding.  Returns ((status code, tracker
patches), store). -/
def orderSagaHandler (db : Db) (productId newOrderId : String)
    (env : SagaEnv) : (Nat × List (String × String)) × Db :=
  if productId == "" then ((400, []), db)
  else
    let db2 := createOrder db newOrderId defaultUserId
    match env.inventory with
    | CallOutcome.threw => ((500, []), db2)
    | CallOutcome.resp st avail =>
      if st != 200 || !avail then ((400, []), db2)
      else
        match env.tracker with
        | CallOutcome.threw => ((500, []), db2)
        | CallOutcome.resp st2 trackerId =>
          if st2 != 201 then ((400, []), db2)
          else
            match env.payment with
            | CallOutcome.threw => ((500, []), db2)
            | CallOutcome.resp st3 payStatus =>
              if st3 != 200 || payStatus != "success" then
                ((400, [(trackerId, "canceled")]), db2)
              else ((201, [(trackerId, "paid")]), db2)

/-- Modelled from the spec: the express `errorHandler` middleware is
imported by every service but its source file is not in the repository
snapshot; per the spec's error-handling design (§7), a failure thrown
inside a handler is surfaced to the HTTP caller as a 500. -/
def errorHandlerStatus : Nat := 500

/-- State of the shared broker channel at publish time. -/
inductive ChannelState where
  | unavailable
  | ready (publishOk : Bool)
deriving Repr, DecidableEq

/-- `POST /api/v2/order` handler: create the order, then publish
`order.created`; a missing channel throws (surfaced via
`errorHandlerStatus`), and `publish` returning false answers 500.  The
second component of the response lists the messages published.  Returns
((status code, published messages), store). -/
def orderAsyncHandler (db : Db) (productId newOrderId : String)
    (ch : ChannelState) : (Nat × List QueueMessage) × Db :=
  if productId == "" then ((400, []), db)
  else
    let db2 := createOrder db newOrderId defaultUserId
    match ch with
    | ChannelState.unavailable => ((errorHandlerStatus, []), db2)
    | ChannelState.ready ok =>
      if ok then
        ((201, [QueueMessage.orderCreated newOrderId [productId]]), db2)
      else ((500, []), db2)

/-- A store with a buyer (balance 10), a product (price 1, stock 5) and an
order with that product attached. -/
def dbPay : Db :=
  { users := [⟨"u1", "John Doe", 10⟩],
    products := [⟨"A", "Bread", 1, 5⟩],
    orders := [⟨"o1", "u1", ["A"]⟩],
    tracks := [] }

/-- A store with a buyer and an order with no products attached. -/
def dbEmptyOrder : Db :=
  { users := [⟨"u1", "John Doe", 10⟩],
    products := [⟨"A", "Bread", 1, 5⟩],
    orders := [⟨"o2", "u1", []⟩],
    tracks := [] }

/-! ## Theorems -/

/-- Claim C1: the claim says a tracker that reached `paid` or `canceled` is
never changed by a later event or update call.  The code applies
`payment.processed` and `inventory.checked{false}` updates and the PATCH
update unconditionally: here a tracker in the terminal status `paid` is
overwritten to `canceled` by a late `payment.processed{failed}` event, by an
`inventory.checked{false}` event, and by a PATCH call. -/
theorem terminal_status_overwritten :
    dbPaid.tracks = [⟨"t1", "o1", "paid"⟩] ∧
    (handleTrackMessage dbPaid "t2"
        (QueueMessage.paymentProcessed "o1" "failed")).tracks
      = [⟨"t1", "o1", "canceled"⟩] ∧
    (handleTrackMessage dbPaid "t2"
        (QueueMessage.inventoryChecked "o1" false)).tracks
      = [⟨"t1", "o1", "canceled"⟩] ∧
    (trackUpdateHandler dbPaid "t1" "canceled").2.tracks
      = [⟨"t1", "o1", "canceled"⟩] := by
  decide

/-- Claim C3: the claim says a PATCH with `newStatus` outside
`{paid, canceled}` answers 400 and leaves the tracker unchanged.  The
source's validation branch is missing a `return`: the response is 400 yet
the stored status is still overwritten with the invalid value. -/
theorem tracker_update_invalid_status_bug :
    dbCreated.tracks = [⟨"t1", "o1", "created"⟩] ∧
    (trackUpdateHandler dbCreated "t1" "shipped").1 = 400 ∧
    (trackUpdateHandler dbCreated "t1" "shipped").2.tracks
      = [⟨"t1", "o1", "shipped"⟩] := by
  decide

/-- Claim C2: the claim says `isAvailable = true` iff every REQUESTED
identity exists among the stored rows with requested count ≤ stock.  With
one stored product `A` (stock 10) and request `["A", "B"]`, identity `B`
matches no stored row, so the claim's predicate is false, yet both the
synchronous handler and the event handler report `isAvailable = true`. -/
theorem inventory_missing_id_counterexample :
    specAvailable dbInv ["A", "B"] = false ∧
    (checkInventoryHandler dbInv "o1" ["A", "B"]).1 = (200, some true) ∧
    (handleOrderCreatedInventory dbInv "o1" ["A", "B"]).2
      = [QueueMessage.inventoryChecked "o1" true] := by
  decide

/-- Claim C2 (amended): whenever at least one stored product matches, both
entry points report `isAvailable = availableFor`, and `availableFor` is
true iff every MATCHED stored row has its requested count ≤ its stock —
requested identities with no stored row are ignored by the check. -/
theorem inventory_availability_matched_rows (db : Db) (oid : String)
    (pids : List String) (o : Order)
    (hoid : oid ≠ "") (hpids : pids ≠ [])
    (hmatch : findManyProducts db pids ≠ [])
    (ho : findOrder db oid = some o) :
    (checkInventoryHandler db oid pids).1 = (200, some (availableFor db pids)) ∧
    (handleOrderCreatedInventory db oid pids).2
      = [QueueMessage.inventoryChecked oid (availableFor db pids)] ∧
    (availableFor db pids = true ↔
      ∀ p ∈ findManyProducts db pids,
        (groupedCount pids p.id : Int) ≤ p.stockAmount) := by
  have h1 : (oid == "") = false := by
    simp [hoid]
  have h2 : pids.isEmpty = false := by
    cases pids with
    | nil => exact absurd rfl hpids
    | cons a l => rfl
  have h3 : (findManyProducts db pids).isEmpty = false := by
    cases hm : findManyProducts db pids with
    | nil => exact absurd hm hmatch
    | cons a l => rfl
  refine ⟨?_, ?_, ?_⟩
  · rw [checkInventoryHandler]
    simp only [h1, h2, h3, Bool.or_self, Bool.false_or, if_false]
    cases hav : availableFor db pids with
    | true => simp [ho]
    | false => simp
  · rw [handleOrderCreatedInventory]
    simp only [h3, if_false]
    cases hav : availableFor db pids with
    | true => simp [ho]
    | false => simp
  · rw [availableFor, checkAvailability]
    rw [List.all_eq_true]
    constructor
    · intro hall p hp
      have hb := hall p hp
      rw [Bool.and_eq_true] at hb
      exact of_decide_eq_true hb.2
    · intro hfor p hp
      rw [Bool.and_eq_true]
      refine ⟨?_, decide_eq_true (hfor p hp)⟩
      have hpidmem : p.id ∈ pids := by
        have hc := (List.mem_filter.mp hp).2
        simpa using hc
      have hmemf : p.id ∈ pids.filter (fun x => x == p.id) :=
        List.mem_filter.mpr ⟨hpidmem, by simp⟩
      have hlen : 0 < (pids.filter (fun x => x == p.id)).length :=
        List.length_pos.mpr (List.ne_nil_of_mem hmemf)
      simp only [groupedCount, bne_iff_ne, ne_eq]
      omega

/-- Claim C2 (amended) witness at a concrete store. -/
theorem inventory_availability_matched_rows_witness :
    (checkInventoryHandler dbInv "o1" ["A"]).1
      = (200, some (availableFor dbInv ["A"])) ∧
    (handleOrderCreatedInventory dbInv "o1" ["A"]).2
      = [QueueMessage.inventoryChecked "o1" (availableFor dbInv ["A"])] := by
  have h := inventory_availability_matched_rows dbInv "o1" ["A"]
    ⟨"o1", "u1", []⟩ (by decide) (by decide) (by decide) (by decide)
  exact ⟨h.1, h.2.1⟩

/-- Claim C8: the claim says the async empty-match case has the same
outward effect as publishing `inventory.checked{isAvailable:false}`.  In
the code the consumer publishes NOTHING there (it logs and returns), which
differs from that event; the synchronous 404 half of the claim holds. -/
theorem empty_match_async_counterexample :
    (handleOrderCreatedInventory dbInv "o1" ["ZZZ"]).2 = [] ∧
    (handleOrderCreatedInventory dbInv "o1" ["ZZZ"]).2
      ≠ [QueueMessage.inventoryChecked "o1" false] ∧
    (handleOrderCreatedInventory dbInv "o1" ["ZZZ"]).1 = dbInv ∧
    (checkInventoryHandler dbInv "o1" ["ZZZ"]).1.1 = 404 := by
  decide

/-- Claim C8 (amended): when no stored product matches the request, the
synchronous handler responds 404 and the `order.created` consumer drops
the message, publishing no event at all and leaving the store unchanged. -/
theorem empty_match_behavior (db : Db) (oid : String) (pids : List String)
    (hoid : oid ≠ "") (hpids : pids ≠ [])
    (hmatch : findManyProducts db pids = []) :
    checkInventoryHandler db oid pids = ((404, none), db) ∧
    handleOrderCreatedInventory db oid pids = (db, []) := by
  have h1 : (oid == "") = false := by simp [hoid]
  have h2 : pids.isEmpty = false := by
    cases pids with
    | nil => exact absurd rfl hpids
    | cons a l => rfl
  have h3 : (findManyProducts db pids).isEmpty = true := by
    rw [hmatch]; rfl
  constructor
  · rw [checkInventoryHandler]
    simp [h1, h2, h3]
  · rw [handleOrderCreatedInventory]
    simp [h3]

/-- Claim C8 (amended) witness at a concrete store. -/
theorem empty_match_behavior_witness :
    checkInventoryHandler dbInv "o1" ["ZZZ"] = ((404, none), dbInv) ∧
    handleOrderCreatedInventory dbInv "o1" ["ZZZ"] = (dbInv, []) :=
  empty_match_behavior dbInv "o1" ["ZZZ"] (by decide) (by decide) (by decide)

/-- Helper: a debit of 0 leaves the store unchanged. -/
theorem debitUser_zero (db : Db) (uid : String) : debitUser db uid 0 = db := by
  have h : ∀ l : List User,
      l.map (fun u =>
        if u.id == uid then { u with balance := u.balance - 0 } else u) = l := by
    intro l
    induction l with
    | nil => rfl
    | cons a l ih =>
      simp only [List.map_cons, ih]
      by_cases ha : (a.id == uid) = true
      · simp [ha]
      · simp [ha]
  unfold debitUser
  rw [h]

/-- Helper: a pointwise-identity map is the identity. -/
theorem map_id_of_eq {α : Type} (l : List α) (f : α → α)
    (h : ∀ a ∈ l, f a = a) : l.map f = l := by
  induction l with
  | nil => rfl
  | cons a l ih =>
    simp only [List.map_cons]
    rw [h a (List.mem_cons_self a l), ih (fun b hb => h b (List.mem_cons_of_mem a hb))]

/-- Helper: the inventory-update call succeeds with a 200 whenever the
order exists. -/
theorem inventoryUpdate_status (db : Db) (oid : String) (o : Order)
    (hoid : oid ≠ "") (ho : findOrder db oid = some o) :
    inventoryUpdateHandler db oid
      = (200, { db with
          products := db.products.map (fun p =>
            if o.productIds.contains p.id then
              { p with stockAmount := p.stockAmount - 1 }
            else p) }) := by
  have h1 : (oid == "") = false := by simp [hoid]
  rw [inventoryUpdateHandler]
  simp [h1, ho]

/-- Claim C4: payment settlement (both the `inventory.checked` branch and
`POST /api/v1/payment`) computes total = Σ price over the order's attached
products, succeeds iff balance ≥ total, debits exactly the total on
success, and on failure (insufficient funds, order not found) reports
failure leaving the store — in particular the balance — unchanged. -/
theorem payment_settlement_correct (db : Db) (oid : String) (hoid : oid ≠ "") :
    (findOrder db oid = none →
      handleInventoryCheckedPayment db oid true
        = (db, [QueueMessage.paymentProcessed oid "failed"]) ∧
      paymentHandler db oid false = ((404, some "failed"), db)) ∧
    (∀ o u, findOrder db oid = some o → findUser db o.userId = some u →
      (orderTotal db o ≤ u.balance →
        handleInventoryCheckedPayment db oid true
          = (debitUser db o.userId (orderTotal db o),
             [QueueMessage.paymentProcessed oid "success"]) ∧
        (paymentHandler db oid false).1 = (200, some "success") ∧
        (paymentHandler db oid false).2
          = debitUser (inventoryUpdateHandler db oid).2 o.userId
              (orderTotal db o)) ∧
      (u.balance < orderTotal db o →
        handleInventoryCheckedPayment db oid true
          = (db, [QueueMessage.paymentProcessed oid "failed"]) ∧
        paymentHandler db oid false = ((400, some "failed"), db))) := by
  have h1 : (oid == "") = false := by simp [hoid]
  constructor
  · intro hnone
    constructor
    · rw [handleInventoryCheckedPayment]
      simp [hnone]
    · rw [paymentHandler]
      simp [h1, hnone]
  · intro o u ho hu
    constructor
    · intro hbal
      have hnlt : ¬ u.balance < orderTotal db o := not_lt.mpr hbal
      have hinv := inventoryUpdate_status db oid o hoid ho
      refine ⟨?_, ?_, ?_⟩
      · rw [handleInventoryCheckedPayment]
        simp [ho, hu, hnlt]
      · rw [paymentHandler]
        simp [h1, ho, hu, hnlt, hinv]
      · rw [paymentHandler]
        simp [h1, ho, hu, hnlt, hinv]
    · intro hlt
      constructor
      · rw [handleInventoryCheckedPayment]
        simp [ho, hu, hlt]
      · rw [paymentHandler]
        simp [h1, ho, hu, hlt]

/-- Claim C4 witness: buyer balance 10, one attached product of price 1. -/
theorem payment_settlement_correct_witness :
    handleInventoryCheckedPayment dbPay "o1" true
      = (debitUser dbPay "u1" (orderTotal dbPay ⟨"o1", "u1", ["A"]⟩),
         [QueueMessage.paymentProcessed "o1" "success"]) ∧
    (paymentHandler dbPay "o1" false).1 = (200, some "success") ∧
    (paymentHandler dbPay "o1" false).2
      = debitUser (inventoryUpdateHandler dbPay "o1").2 "u1"
          (orderTotal dbPay ⟨"o1", "u1", ["A"]⟩) :=
  ((payment_settlement_correct dbPay "o1" (by decide)).2
    ⟨"o1", "u1", ["A"]⟩ ⟨"u1", "John Doe", 10⟩ (by decide) (by decide)).1
    (by norm_num [orderTotal, attachedProducts, dbPay])

/-- Claim C9: in `POST /api/v1/payment` the stock decrement (the inventory
PATCH) happens before the balance debit; when the debit then errors the
handler answers 500 with the stock already decremented and the balance
untouched — the operation is not atomic. -/
theorem payment_stock_decrement_not_rolled_back (db : Db) (oid : String)
    (o : Order) (u : User) (hoid : oid ≠ "")
    (ho : findOrder db oid = some o) (hu : findUser db o.userId = some u)
    (hbal : orderTotal db o ≤ u.balance) :
    paymentHandler db oid true
      = ((500, none), (inventoryUpdateHandler db oid).2) ∧
    (inventoryUpdateHandler db oid).2.products
      = db.products.map (fun p =>
          if o.productIds.contains p.id then
            { p with stockAmount := p.stockAmount - 1 }
          else p) ∧
    (inventoryUpdateHandler db oid).2.users = db.users := by
  have h1 : (oid == "") = false := by simp [hoid]
  have hnlt : ¬ u.balance < orderTotal db o := not_lt.mpr hbal
  have hinv := inventoryUpdate_status db oid o hoid ho
  refine ⟨?_, ?_, ?_⟩
  · rw [paymentHandler]
    simp [h1, ho, hu, hnlt, hinv]
  · rw [hinv]
  · rw [hinv]

/-- Claim C9 witness at a concrete store. -/
theorem payment_stock_decrement_not_rolled_back_witness :
    paymentHandler dbPay "o1" true
      = ((500, none), (inventoryUpdateHandler dbPay "o1").2) ∧
    (inventoryUpdateHandler dbPay "o1").2.products
      = dbPay.products.map (fun p =>
          if (["A"] : List String).contains p.id then
            { p with stockAmount := p.stockAmount - 1 }
          else p) ∧
    (inventoryUpdateHandler dbPay "o1").2.users = dbPay.users :=
  payment_stock_decrement_not_rolled_back dbPay "o1"
    ⟨"o1", "u1", ["A"]⟩ ⟨"u1", "John Doe", 10⟩ (by decide) (by decide)
    (by decide) (by norm_num [orderTotal, attachedProducts, dbPay])

/-- Claim C10: for an existing order with no attached products and a
non-negative buyer balance, both settlement paths compute total 0, report
success, and leave the store (hence the balance) unchanged. -/
theorem payment_empty_order_success (db : Db) (oid : String)
    (o : Order) (u : User) (hoid : oid ≠ "")
    (ho : findOrder db oid = some o) (hu : findUser db o.userId = some u)
    (hempty : attachedProducts db o = []) (hbal : 0 ≤ u.balance) :
    orderTotal db o = 0 ∧
    handleInventoryCheckedPayment db oid true
      = (db, [QueueMessage.paymentProcessed oid "success"]) ∧
    paymentHandler db oid false = ((200, some "success"), db) := by
  have h1 : (oid == "") = false := by simp [hoid]
  have htot : orderTotal db o = 0 := by
    rw [orderTotal, hempty]
    simp
  have hnlt : ¬ u.balance < orderTotal db o := by
    rw [htot]; exact not_lt.mpr hbal
  have hnone : ∀ p ∈ db.products, o.productIds.contains p.id = false := by
    intro p hp
    cases hc : o.productIds.contains p.id with
    | false => rfl
    | true =>
      have hpf : p ∈ attachedProducts db o := List.mem_filter.mpr ⟨hp, hc⟩
      rw [hempty] at hpf
      exact absurd hpf (List.not_mem_nil p)
  have hmap : db.products.map (fun p =>
      if o.productIds.contains p.id then
        { p with stockAmount := p.stockAmount - 1 }
      else p) = db.products :=
    map_id_of_eq _ _ (fun p hp => by rw [hnone p hp]; simp)
  have hinv : inventoryUpdateHandler db oid = (200, db) := by
    rw [inventoryUpdate_status db oid o hoid ho, hmap]
  refine ⟨htot, ?_, ?_⟩
  · rw [handleInventoryCheckedPayment]
    simp [ho, hu, hnlt, htot, debitUser_zero, hbal]
  · rw [paymentHandler]
    simp [h1, ho, hu, hnlt, hinv, htot, debitUser_zero, hbal]

/-- Claim C10 witness: an order with no attached products, balance 10. -/
theorem payment_empty_order_success_witness :
    orderTotal dbEmptyOrder ⟨"o2", "u1", []⟩ = 0 ∧
    handleInventoryCheckedPayment dbEmptyOrder "o2" true
      = (dbEmptyOrder, [QueueMessage.paymentProcessed "o2" "success"]) ∧
    paymentHandler dbEmptyOrder "o2" false
      = ((200, some "success"), dbEmptyOrder) :=
  payment_empty_order_success dbEmptyOrder "o2"
    ⟨"o2", "u1", []⟩ ⟨"u1", "John Doe", 10⟩ (by decide) (by decide)
    (by decide) (by decide) (by decide)

/-- Claim C5: in the synchronous saga, a payment call that resolves with a
failure (non-200 status or payment status ≠ "success") makes the handler
issue the compensating tracker update to `canceled` and answer 400, while
a payment call that throws makes it answer 500 with no tracker update. -/
theorem saga_payment_failure_compensation (db : Db)
    (pid nid tid ps : String) (st : Nat) (hpid : pid ≠ "") :
    ((st ≠ 200 ∨ ps ≠ "success") →
      orderSagaHandler db pid nid
        ⟨CallOutcome.resp 200 true, CallOutcome.resp 201 tid,
         CallOutcome.resp st ps⟩
        = ((400, [(tid, "canceled")]), createOrder db nid defaultUserId)) ∧
    orderSagaHandler db pid nid
        ⟨CallOutcome.resp 200 true, CallOutcome.resp 201 tid,
         CallOutcome.threw⟩
      = ((500, []), createOrder db nid defaultUserId) := by
  have h1 : (pid == "") = false := by simp [hpid]
  constructor
  · intro hfail
    have hcond : (st != 200 || ps != "success") = true := by
      rcases hfail with h | h <;> simp [h]
    rw [orderSagaHandler]
    simp [h1, hcond]
  · rw [orderSagaHandler]
    simp [h1]

/-- Claim C5 witness: payment resolves 400/"failed". -/
theorem saga_payment_failure_compensation_witness :
    orderSagaHandler dbNoTrack "A" "o9"
      ⟨CallOutcome.resp 200 true, CallOutcome.resp 201 "t9",
       CallOutcome.resp 400 "failed"⟩
      = ((400, [("t9", "canceled")]),
         createOrder dbNoTrack "o9" defaultUserId) :=
  (saga_payment_failure_compensation dbNoTrack "A" "o9" "t9" "failed" 400
    (by decide)).1 (Or.inl (by decide))

/-- Claim C7: for a non-empty productId, `POST /api/v2/order` answers 500
both when the channel is unavailable (the handler throws) and when
`publish` returns false, and it answers 201 — with the `order.created`
event handed off — exactly when the publish succeeded. -/
theorem async_publish_failure_surfaced (db : Db) (pid nid : String)
    (hpid : pid ≠ "") :
    (orderAsyncHandler db pid nid ChannelState.unavailable).1 = (500, []) ∧
    (orderAsyncHandler db pid nid (ChannelState.ready false)).1 = (500, []) ∧
    (orderAsyncHandler db pid nid (ChannelState.ready true)).1
      = (201, [QueueMessage.orderCreated nid [pid]]) ∧
    (∀ ch, (orderAsyncHandler db pid nid ch).1.1 = 201 →
      ch = ChannelState.ready true) := by
  have h1 : (pid == "") = false := by simp [hpid]
  refine ⟨?_, ?_, ?_, ?_⟩
  · rw [orderAsyncHandler]
    simp [h1, errorHandlerStatus]
  · rw [orderAsyncHandler]
    simp [h1]
  · rw [orderAsyncHandler]
    simp [h1]
  · intro ch hch
    cases ch with
    | unavailable =>
      rw [orderAsyncHandler] at hch
      simp [h1, errorHandlerStatus] at hch
    | ready ok =>
      cases ok with
      | false =>
        rw [orderAsyncHandler] at hch
        simp [h1] at hch
      | true => rfl

/-- Claim C7 witness at a concrete store. -/
theorem async_publish_failure_surfaced_witness :
    (orderAsyncHandler dbNoTrack "A" "o9" ChannelState.unavailable).1
      = (500, []) ∧
    (orderAsyncHandler dbNoTrack "A" "o9" (ChannelState.ready false)).1
      = (500, []) ∧
    (orderAsyncHandler dbNoTrack "A" "o9" (ChannelState.ready true)).1
      = (201, [QueueMessage.orderCreated "o9" ["A"]]) := by
  have h := async_publish_failure_surfaced dbNoTrack "A" "o9" (by decide)
  exact ⟨h.1, h.2.1, h.2.2.1⟩

/-- Helper: a tracks-map that preserves `orderId` preserves uniqueness. -/
theorem tracksUnique_map (db : Db) (f : OrderTrack → OrderTrack)
    (hf : ∀ t, (f t).orderId = t.orderId) (h : TracksUnique db) :
    TracksUnique { db with tracks := db.tracks.map f } := by
  unfold TracksUnique at h ⊢
  rw [List.pairwise_map]
  exact h.imp (fun hab => by rw [hf, hf]; exact hab)

/-- Helper: updating a tracker's status by tracker id preserves
uniqueness. -/
theorem tracksUnique_updateById (db : Db) (tid ns : String)
    (h : TracksUnique db) : TracksUnique (orderTrackUpdateById db tid ns) := by
  unfold orderTrackUpdateById
  exact tracksUnique_map db _
    (fun t => by by_cases ht : (t.id == tid) = true <;> simp [ht]) h

/-- Helper: updating a tracker's status by order id preserves
uniqueness. -/
theorem tracksUnique_updateByOrder (db : Db) (oid ns : String)
    (h : TracksUnique db) :
    TracksUnique (orderTrackUpdateByOrder db oid ns) := by
  unfold orderTrackUpdateByOrder
  exact tracksUnique_map db _
    (fun t => by by_cases ht : (t.orderId == oid) = true <;> simp [ht]) h

/-- Helper: a successful `orderTrack.create` preserves uniqueness. -/
theorem tracksUnique_create_ok (db : Db) (nid oid st : String) (db2 : Db)
    (h : TracksUnique db)
    (hok : orderTrackCreate db nid oid st = Except.ok db2) :
    TracksUnique db2 := by
  rw [orderTrackCreate] at hok
  by_cases hany : (db.tracks.any (fun t => t.id == nid || t.orderId == oid)) = true
  · simp [hany] at hok
  · rw [if_neg (by simpa using hany)] at hok
    cases hok
    unfold TracksUnique
    rw [List.pairwise_append]
    refine ⟨h, List.pairwise_singleton _ _, ?_⟩
    intro a ha b hb
    rw [List.mem_singleton] at hb
    subst hb
    intro hEq
    exact hany (List.any_eq_true.mpr ⟨a, ha, by simp [hEq]⟩)

/-- Claim C6: with pairwise-distinct tracker order-ids, a successful
tracker create followed by a second create for the same order makes the
second call fail (500) without changing the store, and every operation of
the tracking service — HTTP create, HTTP update, and the event consumer —
preserves the at-most-one-tracker-per-order invariant. -/
theorem tracker_unique_invariant (db : Db) (h : TracksUnique db) :
    (∀ oid nid nid2,
      (trackCreateHandler db oid nid).1.1 = 201 →
        (trackCreateHandler (trackCreateHandler db oid nid).2 oid nid2).1.1
          = 500 ∧
        (trackCreateHandler (trackCreateHandler db oid nid).2 oid nid2).2
          = (trackCreateHandler db oid nid).2) ∧
    (∀ oid nid, TracksUnique (trackCreateHandler db oid nid).2) ∧
    (∀ tid ns, TracksUnique (trackUpdateHandler db tid ns).2) ∧
    (∀ nid msg, TracksUnique (handleTrackMessage db nid msg)) := by
  refine ⟨?_, ?_, ?_, ?_⟩
  · intro oid nid nid2 h201
    by_cases hoid : (oid == "") = true
    · rw [trackCreateHandler] at h201
      simp [hoid] at h201
    · have hoidf : (oid == "") = false := by simpa using hoid
      cases hfo : findOrder db oid with
      | none =>
        rw [trackCreateHandler] at h201
        simp [hoidf, hfo] at h201
      | some o =>
        cases hcr : orderTrackCreate db nid o.id "created" with
        | error e =>
          rw [trackCreateHandler] at h201
          simp [hoidf, hfo, hcr] at h201
        | ok db2 =>
          have h1 : trackCreateHandler db oid nid
              = ((201, some (nid, "created")), db2) := by
            rw [trackCreateHandler]
            simp [hoidf, hfo, hcr]
          rw [h1]
          have hdb2 : db2
              = { db with tracks := db.tracks ++ [⟨nid, o.id, "created"⟩] } := by
            rw [orderTrackCreate] at hcr
            by_cases hany :
                (db.tracks.any (fun t => t.id == nid || t.orderId == o.id)) = true
            · simp [hany] at hcr
            · rw [if_neg (by simpa using hany)] at hcr
              cases hcr
              rfl
          have hfo2 : findOrder db2 oid = some o := by
            rw [hdb2]
            exact hfo
          have hany2 : (db2.tracks.any
              (fun t => t.id == nid2 || t.orderId == o.id)) = true := by
            rw [hdb2]
            exact List.any_eq_true.mpr
              ⟨⟨nid, o.id, "created"⟩, by simp, by simp⟩
          have hcr2 : orderTrackCreate db2 nid2 o.id "created"
              = Except.error "Unique constraint failed on OrderTrack" := by
            rw [orderTrackCreate, if_pos hany2]
          constructor
          · rw [trackCreateHandler]
            simp [hoidf, hfo2, hcr2]
          · rw [trackCreateHandler]
            simp [hoidf, hfo2, hcr2]
  · intro oid nid
    rw [trackCreateHandler]
    by_cases hoid : (oid == "") = true
    · simpa [hoid] using h
    · have hoidf : (oid == "") = false := by simpa using hoid
      cases hfo : findOrder db oid with
      | none => simpa [hoidf, hfo] using h
      | some o =>
        cases hcr : orderTrackCreate db nid o.id "created" with
        | error e => simpa [hoidf, hfo, hcr] using h
        | ok db2 =>
          simpa [hoidf, hfo, hcr] using
            tracksUnique_create_ok db nid o.id "created" db2 h hcr
  · intro tid ns
    rw [trackUpdateHandler]
    repeat' split
    all_goals first
      | exact h
      | exact tracksUnique_updateById db tid ns h
  · intro nid msg
    cases msg with
    | orderCreated oid pids =>
      rw [handleTrackMessage]
      by_cases hso : ((findOrder db oid).isSome) = true
      · cases hcr : orderTrackCreate db nid oid "created" with
        | ok db2 =>
          simpa [hso, hcr] using
            tracksUnique_create_ok db nid oid "created" db2 h hcr
        | error e => simpa [hso, hcr] using h
      · simpa [hso] using h
    | inventoryChecked oid avail =>
      cases avail with
      | true => exact h
      | false => exact tracksUnique_updateByOrder db oid "canceled" h
    | paymentProcessed oid st =>
      exact tracksUnique_updateByOrder db oid _ h

/-- Claim C6 witness: a second create for the same order fails with 500
and leaves the store unchanged. -/
theorem tracker_unique_invariant_witness :
    (trackCreateHandler (trackCreateHandler dbNoTrack "o1" "t1").2 "o1" "t2").1.1
      = 500 ∧
    (trackCreateHandler (trackCreateHandler dbNoTrack "o1" "t1").2 "o1" "t2").2
      = (trackCreateHandler dbNoTrack "o1" "t1").2 :=
  (tracker_unique_invariant dbNoTrack (by decide)).1 "o1" "t1" "t2" (by decide)
